import Mathlib

/-!
A formal model of the sharpe-sortino-simplifier calculation engine
(src/utils/calculationUtils.ts, function calculateSharpeAndSortino) and of
the data-format auto-detection (src/utils/fileUtils.ts, function
extractValidNumbers), together with theorems settling the specification
claims against the code.

Modelling conventions.
JS numbers are modelled by real numbers for the engine and by rationals for
the format classifier (whose arithmetic is order comparisons, absolute
values and division by 100).  The one place a claim exercises a division
whose JS result is not a real number (0/0 = NaN in the sample-variance
computation at n = 1) is modelled explicitly: `jsdiv` returns `none` for a
zero divisor, standing for the non-real JS outcome (NaN or a signed
infinity), and the code path consuming it (the Sharpe epsilon guard, where
NaN > EPSILON is false in JS) maps `none` to the zero branch, exactly as
the JS comparison does.  `Real.log`, `Real.exp`, `Real.sqrt` and real
`rpow` model Math.log, Math.exp, Math.sqrt and Math.pow; they agree with JS
on the domains the value-level theorems quantify over (positive bases,
non-negative radicands), and theorems about inputs outside those domains
only inspect control flow (whether an exception is thrown), which does not
depend on the numeric garbage JS produces there.  The thrown exception of
the source is modelled by `Except.error`; the source throws in exactly one
place.  JS `Math.min(...xs)` / `Math.max(...xs)` of an empty spread give
plus/minus infinity, modelled by `WithTop` / `WithBot`.
-/

namespace SharpeSortino

/-- JS division a/b: a zero divisor gives NaN (for a = 0) or a signed
infinity, never a real number; `none` models that non-real outcome. -/
noncomputable def jsdiv (a b : ℝ) : Option ℝ :=
  if b = 0 then none else some (a / b)

/-- JS truthiness of an optional number field: undefined and 0 are falsy
(NaN, also falsy, has no counterpart among the reals). -/
def jsTruthy (v : Option ℝ) : Prop :=
  v ≠ none ∧ v ≠ some 0

noncomputable instance : DecidablePred jsTruthy := fun v =>
  inferInstanceAs (Decidable (v ≠ none ∧ v ≠ some 0))

/-- JS `x || y` on numbers: y when x is falsy (x = 0), else x. -/
noncomputable def jsOr (x y : ℝ) : ℝ :=
  if x = 0 then y else x

/-- JS `Math.min(...xs)`: the empty spread gives +Infinity. -/
noncomputable def jsMinList (xs : List ℝ) : WithTop ℝ :=
  xs.foldr (fun x m => min (↑x) m) ⊤

/-- JS `Math.max(...xs)`: the empty spread gives -Infinity. -/
noncomputable def jsMaxList (xs : List ℝ) : WithBot ℝ :=
  xs.foldr (fun x m => max (↑x) m) ⊥

/-- CalculationParams of calculationUtils.ts (riskFreeRate, tradingPeriods,
optional targetReturn, optional dataFormat string, optional portfolioValue). -/
structure CalculationParams where
  riskFreeRate : ℝ
  tradingPeriods : ℝ
  targetReturn : Option ℝ
  dataFormat : Option String
  portfolioValue : Option ℝ

/-- CalculationResult of calculationUtils.ts.  stdDeviation is an
`Option ℝ` because at n = 1 the source computes sqrt(0/0), which is NaN in
JS (`none` here); every other field is a real number on the inputs the
claims range over. -/
structure CalculationResult where
  sharpeRatio : ℝ
  sortinoRatio : ℝ
  meanReturn : ℝ
  geoMean : ℝ
  stdDeviation : Option ℝ
  downsideDeviation : ℝ
  totalReturns : ℕ
  positiveReturns : ℕ
  negativeReturns : ℕ
  minReturn : WithTop ℝ
  maxReturn : WithBot ℝ
  annualizedReturn : ℝ
  sharpeSE : ℝ
  excessReturn : ℝ

/-- convertToFractionalReturns: no portfolio value, or one ≤ 0 (the falsy
check `!portfolioValue` plus `portfolioValue <= 0`), returns the array
unconverted with wasConverted = false; otherwise divides each return by the
portfolio value. -/
noncomputable def convertToFractionalReturns (returns : List ℝ)
    (portfolioValue : Option ℝ) : List ℝ × Bool :=
  match portfolioValue with
  | none => (returns, false)
  | some pv => if pv ≤ 0 then (returns, false) else (returns.map fun r => r / pv, true)

/-- The returns array used for calculation and the wasConverted flag
(source lines 66-84): conversion is attempted only when dataFormat is
"absolute" and portfolioValue is truthy. -/
noncomputable def returnsForCalculation (returns : List ℝ)
    (params : CalculationParams) : List ℝ × Bool :=
  if params.dataFormat = some "absolute" ∧ jsTruthy params.portfolioValue then
    convertToFractionalReturns returns params.portfolioValue
  else (returns, false)

/-- Periodic risk-free rate (source line 87):
Math.pow(1 + riskFreeRate / 100, 1 / tradingPeriods) - 1. -/
noncomputable def periodicRiskFreeRate (params : CalculationParams) : ℝ :=
  (1 + params.riskFreeRate / 100) ^ ((1 : ℝ) / params.tradingPeriods) - 1

/-- Periodic target rate (source lines 89-91): the same compound conversion
applied to targetReturn when provided, else the periodic risk-free rate. -/
noncomputable def targetReturnRate (params : CalculationParams) : ℝ :=
  match params.targetReturn with
  | some t => (1 + t / 100) ^ ((1 : ℝ) / params.tradingPeriods) - 1
  | none => periodicRiskFreeRate params

/-- Geometric mean (source lines 95-97):
exp((sum of log(1 + r)) / length) - 1. -/
noncomputable def geoMean (rc : List ℝ) : ℝ :=
  Real.exp ((rc.map fun r => Real.log (1 + r)).sum / rc.length) - 1

/-- Annualized return (source line 100): Math.pow(1 + gm, tradingPeriods) - 1,
computed from the geometric mean only, for every data format. -/
noncomputable def annualizedReturn (rc : List ℝ) (params : CalculationParams) : ℝ :=
  (1 + geoMean rc) ^ params.tradingPeriods - 1

/-- Arithmetic mean (source line 103). -/
noncomputable def meanReturn (rc : List ℝ) : ℝ :=
  rc.sum / rc.length

/-- Sample variance (source line 106): sum of squared deviations divided by
(length - 1), a JS division (0/0 = NaN at length 1). -/
noncomputable def variance (rc : List ℝ) : Option ℝ :=
  jsdiv ((rc.map fun v => (v - meanReturn rc) ^ 2).sum) ((rc.length : ℝ) - 1)

/-- Standard deviation (source line 107): Math.sqrt of the variance (the
square root of NaN is NaN). -/
noncomputable def stdDeviation (rc : List ℝ) : Option ℝ :=
  (variance rc).map Real.sqrt

/-- Squared downside deviations from the target (source lines 122-124):
strict comparison r < targetReturn selects the downside subset. -/
noncomputable def negativeDeviations (rc : List ℝ) (params : CalculationParams) : List ℝ :=
  (rc.filter fun r => r < targetReturnRate params).map
    fun r => (targetReturnRate params - r) ^ 2

/-- Downside variance (source lines 125-127): sum over the downside subset
divided by `(m - 1) || 1`, 0 when the subset is empty. -/
noncomputable def downsideVariance (rc : List ℝ) (params : CalculationParams) : ℝ :=
  if 0 < (negativeDeviations rc params).length then
    (negativeDeviations rc params).sum /
      jsOr (((negativeDeviations rc params).length : ℝ) - 1) 1
  else 0

/-- Downside deviation (source line 128). -/
noncomputable def downsideDeviation (rc : List ℝ) (params : CalculationParams) : ℝ :=
  Real.sqrt (downsideVariance rc params)

/-- Excess return (source line 131). -/
noncomputable def excessReturn (rc : List ℝ) (params : CalculationParams) : ℝ :=
  meanReturn rc - periodicRiskFreeRate params

/-- Annualization factor (source line 132): Math.sqrt(tradingPeriods). -/
noncomputable def annualizationFactor (params : CalculationParams) : ℝ :=
  Real.sqrt params.tradingPeriods

/-- The epsilon guard threshold (source line 133). -/
noncomputable def EPSILON : ℝ := 1e-8

/-- Sharpe ratio (source lines 134-140): 0 unless stdDeviation > EPSILON;
a NaN standard deviation (`none`) fails the JS comparison, giving 0. -/
noncomputable def sharpeRatio (rc : List ℝ) (params : CalculationParams) : ℝ :=
  match stdDeviation rc with
  | some s =>
      if EPSILON < s then excessReturn rc params / s * annualizationFactor params else 0
  | none => 0

/-- Sortino ratio (source lines 141-147): same guard over downsideDeviation. -/
noncomputable def sortinoRatio (rc : List ℝ) (params : CalculationParams) : ℝ :=
  if EPSILON < downsideDeviation rc params then
    excessReturn rc params / downsideDeviation rc params * annualizationFactor params
  else 0

/-- Standard error of the Sharpe ratio (source lines 149-151). -/
noncomputable def sharpeSE (rc : List ℝ) (params : CalculationParams) : ℝ :=
  if 1 < rc.length then
    Real.sqrt ((1 + 0.5 * sharpeRatio rc params ^ 2) / ((rc.length : ℝ) - 1))
  else 0

/-- The result record assembled by the source (lines 153-192): ratio fields
from the calculation series, count and extremum fields from the original
series. -/
noncomputable def computeResult (returns : List ℝ) (params : CalculationParams) :
    CalculationResult :=
  let rc := (returnsForCalculation returns params).1
  { sharpeRatio := sharpeRatio rc params
    sortinoRatio := sortinoRatio rc params
    meanReturn := meanReturn rc
    geoMean := geoMean rc
    stdDeviation := stdDeviation rc
    downsideDeviation := downsideDeviation rc params
    totalReturns := returns.length
    positiveReturns := (returns.filter fun r => 0 ≤ r).length
    negativeReturns := (returns.filter fun r => r < 0).length
    minReturn := jsMinList returns
    maxReturn := jsMaxList returns
    annualizedReturn := annualizedReturn rc params
    sharpeSE := sharpeSE rc params
    excessReturn := excessReturn rc params }

/-- calculateSharpeAndSortino (source lines 50-193): the only throw of the
source is the guard on lines 61-64, `dataFormat === "absolute"` with a falsy
portfolioValue; every other input produces a full result. -/
noncomputable def calculateSharpeAndSortino (returns : List ℝ)
    (params : CalculationParams) : Except String CalculationResult :=
  if params.dataFormat = some "absolute" ∧ ¬ jsTruthy params.portfolioValue then
    Except.error "Portfolio value is required for absolute returns to calculate ratios accurately"
  else
    Except.ok (computeResult returns params)

/-- JS `Math.max(...xs)` over rationals, for the classifier. -/
def jsMaxQ (xs : List ℚ) : WithBot ℚ :=
  xs.foldr (fun x m => max (↑x) m) ⊥

/-- JS `Math.min(...xs)` over rationals: the empty spread gives +Infinity,
which is what the all-zero series produces for the smallest non-zero
magnitude. -/
def jsMinQ (xs : List ℚ) : WithTop ℚ :=
  xs.foldr (fun x m => min (↑x) m) ⊤

/-- The value-processing stage of extractValidNumbers (fileUtils.ts lines
133-200), from the cleaned numeric series onward: explicit formats divide
by 100 or pass through; any other format string runs the auto-detection of
lines 152-198 with its three magnitude buckets, strict 70% thresholds and
magnitude-range fallback.  The float constant 0.7 of the source is the
rational 7/10. -/
def processValues (values : List ℚ) (dataFormat : String) : List ℚ × String :=
  if values.length = 0 then ([], "unknown")
  else if dataFormat = "percent" then (values.map fun v => v / 100, "percent")
  else if dataFormat = "decimal" then (values, "decimal")
  else if dataFormat = "absolute" then (values, "absolute")
  else
    let absValues := values.map fun v => |v|
    let maxAbsValue := jsMaxQ absValues
    let minAbsValue := jsMinQ (absValues.filter fun v => 0 < v)
    let percentRange := (absValues.filter fun v => 1 < v ∧ v ≤ 100).length
    let decimalRange := (absValues.filter fun v => 0 < v ∧ v < 1).length
    let absoluteRange := (absValues.filter fun v => 100 < v).length
    if (7 : ℚ) / 10 * values.length < (percentRange : ℚ) then
      (values.map fun v => v / 100, "percent")
    else if (7 : ℚ) / 10 * values.length < (decimalRange : ℚ) then
      (values, "decimal")
    else if (7 : ℚ) / 10 * values.length < (absoluteRange : ℚ) then
      (values, "absolute")
    else if maxAbsValue ≤ ((100 : ℚ) : WithBot ℚ) ∧
        (((1 : ℚ) / 100 : ℚ) : WithTop ℚ) ≤ minAbsValue then
      (values.map fun v => v / 100, "percent")
    else
      (values, "decimal")

/-! ## General helper lemmas -/

/-- The negation of JS truthiness of an optional number: the field is absent
or equals 0. -/
lemma not_jsTruthy_iff (v : Option ℝ) : ¬ jsTruthy v ↔ v = none ∨ v = some 0 := by
  cases v with
  | none => simp [jsTruthy]
  | some x => simp [jsTruthy]

/-- Filtering a constant list by a predicate false at the constant is empty. -/
lemma filter_replicate_false {α : Type} (p : α → Bool) (a : α) (h : p a = false)
    (n : ℕ) : (List.replicate n a).filter p = [] := by
  induction n with
  | zero => rfl
  | succ m ih => rw [List.replicate_succ, List.filter_cons, h]; simpa using ih

/-- The denominator `(m - 1) || 1` of the downside variance equals
max 1 (m - 1) for a non-empty downside subset. -/
lemma jsOr_sub_one_eq_max (m : ℕ) (hm : 1 ≤ m) :
    jsOr ((m : ℝ) - 1) 1 = max 1 ((m : ℝ) - 1) := by
  rcases eq_or_lt_of_le hm with h | h
  · rw [← h]; norm_num [jsOr]
  · have h2 : (2 : ℝ) ≤ (m : ℝ) := by exact_mod_cast h
    rw [jsOr, if_neg (by linarith), max_eq_right (by linarith)]

lemma jsMaxQ_nil : jsMaxQ [] = ⊥ := rfl

lemma jsMaxQ_cons (x : ℚ) (xs : List ℚ) : jsMaxQ (x :: xs) = max (↑x) (jsMaxQ xs) := rfl

lemma jsMinQ_nil : jsMinQ [] = ⊤ := rfl

lemma jsMinQ_cons (x : ℚ) (xs : List ℚ) : jsMinQ (x :: xs) = min (↑x) (jsMinQ xs) := rfl

/-- The JS max of a list is at most b exactly when every element is. -/
lemma jsMaxQ_le (xs : List ℚ) (b : WithBot ℚ) :
    jsMaxQ xs ≤ b ↔ ∀ x ∈ xs, (x : WithBot ℚ) ≤ b := by
  induction xs with
  | nil => simp [jsMaxQ_nil]
  | cons a l ih => simp [jsMaxQ_cons, max_le_iff, ih]

/-- b is at most the JS min of a list exactly when it is at most every
element (vacuously true for the empty list, whose JS min is +Infinity). -/
lemma le_jsMinQ (xs : List ℚ) (b : WithTop ℚ) :
    b ≤ jsMinQ xs ↔ ∀ x ∈ xs, b ≤ (x : WithTop ℚ) := by
  induction xs with
  | nil => simp [jsMinQ_nil]
  | cons a l ih => simp [jsMinQ_cons, le_min_iff, ih]

/-! ## Branch lemmas for the auto-detection of extractValidNumbers -/

/-- More than 70 percent of the magnitudes in (1,100]: divide by 100. -/
lemma processValues_auto_case1 (values : List ℚ) (h0 : ¬ values.length = 0)
    (h1 : (7 : ℚ) / 10 * values.length <
      (((values.map fun v => |v|).filter fun v => 1 < v ∧ v ≤ 100).length : ℚ)) :
    processValues values "auto" = (values.map fun v => v / 100, "percent") := by
  simp only [processValues]
  rw [if_neg h0, if_neg (by decide), if_neg (by decide), if_neg (by decide), if_pos h1]

/-- More than 70 percent of the magnitudes in (0,1): pass through. -/
lemma processValues_auto_case2 (values : List ℚ) (h0 : ¬ values.length = 0)
    (h1 : ¬ (7 : ℚ) / 10 * values.length <
      (((values.map fun v => |v|).filter fun v => 1 < v ∧ v ≤ 100).length : ℚ))
    (h2 : (7 : ℚ) / 10 * values.length <
      (((values.map fun v => |v|).filter fun v => 0 < v ∧ v < 1).length : ℚ)) :
    processValues values "auto" = (values, "decimal") := by
  simp only [processValues]
  rw [if_neg h0, if_neg (by decide), if_neg (by decide), if_neg (by decide), if_neg h1,
    if_pos h2]

/-- More than 70 percent of the magnitudes above 100: pass through, tagged
absolute. -/
lemma processValues_auto_case3 (values : List ℚ) (h0 : ¬ values.length = 0)
    (h1 : ¬ (7 : ℚ) / 10 * values.length <
      (((values.map fun v => |v|).filter fun v => 1 < v ∧ v ≤ 100).length : ℚ))
    (h2 : ¬ (7 : ℚ) / 10 * values.length <
      (((values.map fun v => |v|).filter fun v => 0 < v ∧ v < 1).length : ℚ))
    (h3 : (7 : ℚ) / 10 * values.length <
      (((values.map fun v => |v|).filter fun v => 100 < v).length : ℚ)) :
    processValues values "auto" = (values, "absolute") := by
  simp only [processValues]
  rw [if_neg h0, if_neg (by decide), if_neg (by decide), if_neg (by decide), if_neg h1,
    if_neg h2, if_pos h3]

/-- No bucket above 70 percent, all magnitudes at most 100 and all non-zero
magnitudes at least 0.01: the percent fallback divides by 100. -/
lemma processValues_auto_case4 (values : List ℚ) (h0 : ¬ values.length = 0)
    (h1 : ¬ (7 : ℚ) / 10 * values.length <
      (((values.map fun v => |v|).filter fun v => 1 < v ∧ v ≤ 100).length : ℚ))
    (h2 : ¬ (7 : ℚ) / 10 * values.length <
      (((values.map fun v => |v|).filter fun v => 0 < v ∧ v < 1).length : ℚ))
    (h3 : ¬ (7 : ℚ) / 10 * values.length <
      (((values.map fun v => |v|).filter fun v => 100 < v).length : ℚ))
    (h4 : jsMaxQ (values.map fun v => |v|) ≤ ((100 : ℚ) : WithBot ℚ) ∧
      (((1 : ℚ) / 100 : ℚ) : WithTop ℚ) ≤
        jsMinQ ((values.map fun v => |v|).filter fun v => 0 < v)) :
    processValues values "auto" = (values.map fun v => v / 100, "percent") := by
  simp only [processValues]
  rw [if_neg h0, if_neg (by decide), if_neg (by decide), if_neg (by decide), if_neg h1,
    if_neg h2, if_neg h3, if_pos h4]

/-- No bucket above 70 percent and the magnitude-range test fails: pass
through, tagged decimal. -/
lemma processValues_auto_case5 (values : List ℚ) (h0 : ¬ values.length = 0)
    (h1 : ¬ (7 : ℚ) / 10 * values.length <
      (((values.map fun v => |v|).filter fun v => 1 < v ∧ v ≤ 100).length : ℚ))
    (h2 : ¬ (7 : ℚ) / 10 * values.length <
      (((values.map fun v => |v|).filter fun v => 0 < v ∧ v < 1).length : ℚ))
    (h3 : ¬ (7 : ℚ) / 10 * values.length <
      (((values.map fun v => |v|).filter fun v => 100 < v).length : ℚ))
    (h4 : ¬ (jsMaxQ (values.map fun v => |v|) ≤ ((100 : ℚ) : WithBot ℚ) ∧
      (((1 : ℚ) / 100 : ℚ) : WithTop ℚ) ≤
        jsMinQ ((values.map fun v => |v|).filter fun v => 0 < v))) :
    processValues values "auto" = (values, "decimal") := by
  simp only [processValues]
  rw [if_neg h0, if_neg (by decide), if_neg (by decide), if_neg (by decide), if_neg h1,
    if_neg h2, if_neg h3, if_neg h4]

/-! ## C1: the absolute-format capital guard -/

/-- C1 counterexample: with dataFormat "absolute" and a negative (hence
non-positive) portfolioValue of -100, the engine does not raise a
configuration error; it returns a full result, and no fractional conversion
takes place (the returns are used as-is). -/
theorem C1_counterexample :
    calculateSharpeAndSortino [(1 : ℝ)] ⟨2, 252, none, some "absolute", some (-100)⟩ =
        Except.ok (computeResult [(1 : ℝ)] ⟨2, 252, none, some "absolute", some (-100)⟩) ∧
      (returnsForCalculation [(1 : ℝ)] ⟨2, 252, none, some "absolute", some (-100)⟩).2 =
        false := by
  constructor
  · simp [calculateSharpeAndSortino, jsTruthy]
  · simp [returnsForCalculation, jsTruthy, convertToFractionalReturns]

/-- C1 (amended): calculateSharpeAndSortino raises its configuration error
exactly when dataFormat is "absolute" and portfolioValue is missing or zero
(the JS-falsy values); a present non-zero portfolioValue, even a negative
one, is accepted and the engine proceeds.  When the error is raised it is
raised before any computation: the call returns an error value and no
partial result. -/
theorem C1_error_iff (returns : List ℝ) (params : CalculationParams) :
    (∃ msg, calculateSharpeAndSortino returns params = Except.error msg) ↔
      params.dataFormat = some "absolute" ∧
        (params.portfolioValue = none ∨ params.portfolioValue = some 0) := by
  unfold calculateSharpeAndSortino
  by_cases h : params.dataFormat = some "absolute" ∧ ¬ jsTruthy params.portfolioValue
  · rw [if_pos h]
    constructor
    · intro _
      exact ⟨h.1, (not_jsTruthy_iff _).mp h.2⟩
    · intro _
      exact ⟨_, rfl⟩
  · rw [if_neg h]
    constructor
    · rintro ⟨msg, hmsg⟩
      simp at hmsg
    · rintro ⟨h1, h2⟩
      exact absurd ⟨h1, (not_jsTruthy_iff _).mpr h2⟩ h

/-! ## C2: no validation of tradingPeriods -/

/-- C2 counterexample: with tradingPeriods = 0 (≤ 0) the engine raises no
configuration error and produces a result. -/
theorem C2_counterexample :
    calculateSharpeAndSortino [(1 : ℝ) / 100] ⟨2, 0, none, none, none⟩ =
        Except.ok (computeResult [(1 : ℝ) / 100] ⟨2, 0, none, none, none⟩) ∧
      (⟨2, 0, none, none, none⟩ : CalculationParams).tradingPeriods ≤ 0 := by
  constructor
  · simp [calculateSharpeAndSortino]
  · norm_num

/-- C2 (amended): calculateSharpeAndSortino performs no validation of
tradingPeriods: for every series and every configuration with
tradingPeriods ≤ 0 whose dataFormat is not "absolute", the call returns a
full result instead of raising a configuration error (the only error the
engine raises is the absolute-without-capital guard of C1). -/
theorem C2_no_trading_periods_validation (returns : List ℝ)
    (params : CalculationParams) (hN : params.tradingPeriods ≤ 0)
    (hdf : params.dataFormat ≠ some "absolute") :
    calculateSharpeAndSortino returns params =
      Except.ok (computeResult returns params) := by
  have h : ¬ (params.dataFormat = some "absolute" ∧ ¬ jsTruthy params.portfolioValue) :=
    fun hcon => hdf hcon.1
  unfold calculateSharpeAndSortino
  rw [if_neg h]

/-- C2 witness: the amended theorem applied at tradingPeriods = -1. -/
theorem C2_witness :
    calculateSharpeAndSortino [(1 : ℝ) / 100] ⟨2, -1, none, none, none⟩ =
      Except.ok (computeResult [(1 : ℝ) / 100] ⟨2, -1, none, none, none⟩) :=
  C2_no_trading_periods_validation _ _ (by norm_num) (by simp)

/-! ## C6: no numeric-domain error from the geometric mean -/

/-- C6 counterexample: the series [-2] has 1 + (-2) ≤ 0, so ln(1 + r) is
undefined, yet the engine returns a full result rather than raising a
numeric-domain error. -/
theorem C6_counterexample :
    calculateSharpeAndSortino [(-2 : ℝ)] ⟨2, 252, none, none, none⟩ =
        Except.ok (computeResult [(-2 : ℝ)] ⟨2, 252, none, none, none⟩) ∧
      (1 : ℝ) + (-2) ≤ 0 := by
  constructor
  · simp [calculateSharpeAndSortino]
  · norm_num

/-- C6 (amended): the engine has no numeric-domain detection at all: for
every series containing a return with 1 + r ≤ 0 and every configuration
that passes the absolute-format guard, calculateSharpeAndSortino returns a
result; in JS the undefined logarithm silently becomes NaN or -Infinity
and propagates into the geometric mean and annualized return. -/
theorem C6_no_numeric_domain_error (returns : List ℝ) (params : CalculationParams)
    (hbad : ∃ r ∈ returns, 1 + r ≤ 0)
    (hok : ¬ (params.dataFormat = some "absolute" ∧ ¬ jsTruthy params.portfolioValue)) :
    calculateSharpeAndSortino returns params =
      Except.ok (computeResult returns params) := by
  unfold calculateSharpeAndSortino
  rw [if_neg hok]

/-- C6 witness: the amended theorem applied to the series [-2]. -/
theorem C6_witness :
    calculateSharpeAndSortino [(-2 : ℝ)] ⟨0, 252, none, none, none⟩ =
      Except.ok (computeResult [(-2 : ℝ)] ⟨0, 252, none, none, none⟩) :=
  C6_no_numeric_domain_error _ _ ⟨-2, by simp, by norm_num⟩ (by simp)

/-! ## C7: single-observation standard deviation -/

/-- C7 counterexample: for the single-observation series the engine performs
the division by n - 1 = 0; the standard deviation it reports is the non-real
NaN (`none`), not the sentinel 0. -/
theorem C7_counterexample :
    stdDeviation [(1 : ℝ) / 2] = none ∧ (none : Option ℝ) ≠ some 0 := by
  constructor
  · norm_num [stdDeviation, variance, jsdiv]
  · simp

/-- C7 (amended): at n = 1 the variance computation divides by zero, so the
reported standard deviation is NaN (`none`), not a sentinel 0; the Sharpe
guard still treats it as insufficient dispersion (NaN > EPSILON is false in
JS), giving ratio 0; for n ≥ 2 the sample formula
sqrt(sum of squared deviations / (n - 1)) holds. -/
theorem C7_std_deviation :
    (∀ c : ℝ, stdDeviation [c] = none) ∧
      (∀ (c : ℝ) (params : CalculationParams), sharpeRatio [c] params = 0) ∧
      (∀ rc : List ℝ, 2 ≤ rc.length →
        stdDeviation rc = some (Real.sqrt
          ((rc.map fun v => (v - meanReturn rc) ^ 2).sum / ((rc.length : ℝ) - 1)))) := by
  have hone : ∀ c : ℝ, stdDeviation [c] = none := by
    intro c
    norm_num [stdDeviation, variance, jsdiv]
  refine ⟨hone, ?_, ?_⟩
  · intro c params
    rw [sharpeRatio, hone c]
  · intro rc h
    have hne : ((rc.length : ℝ) - 1) ≠ 0 := by
      have : (2 : ℝ) ≤ (rc.length : ℝ) := by exact_mod_cast h
      linarith
    rw [stdDeviation, variance, jsdiv, if_neg hne]
    rfl

/-- C7 witness: the n ≥ 2 branch of the amended theorem at the two-element
series [0, 1]. -/
theorem C7_witness :
    stdDeviation [(0 : ℝ), 1] = some (Real.sqrt
      ((([(0 : ℝ), 1].map fun v => (v - meanReturn [(0 : ℝ), 1]) ^ 2).sum) /
        (([(0 : ℝ), 1].length : ℝ) - 1))) :=
  C7_std_deviation.2.2 [(0 : ℝ), 1] (by norm_num)

/-! ## C3: the compound rate conversion -/

/-- C3: the periodic risk-free rate is (1 + a/100)^(1/N) - 1; the same
conversion applies to a supplied target rate, and the periodic risk-free
rate is reused as the downside threshold when no target rate is supplied;
at a = 12, N = 252 the round trip (1 + p)^252 equals 1.12 within 1e-6 (here
exactly). -/
theorem C3_rate_conversion (params : CalculationParams)
    (hN : 0 < params.tradingPeriods) :
    periodicRiskFreeRate params =
        (1 + params.riskFreeRate / 100) ^ ((1 : ℝ) / params.tradingPeriods) - 1 ∧
      (∀ t : ℝ, params.targetReturn = some t →
        targetReturnRate params =
          (1 + t / 100) ^ ((1 : ℝ) / params.tradingPeriods) - 1) ∧
      (params.targetReturn = none →
        targetReturnRate params = periodicRiskFreeRate params) ∧
      |(1 + periodicRiskFreeRate ⟨12, 252, none, none, none⟩) ^ (252 : ℝ) - 1.12| ≤
        1e-6 := by
  refine ⟨rfl, ?_, ?_, ?_⟩
  · intro t ht
    rw [targetReturnRate, ht]
  · intro ht
    rw [targetReturnRate, ht]
  · have h1 : (1 : ℝ) + periodicRiskFreeRate ⟨12, 252, none, none, none⟩ =
        (1.12 : ℝ) ^ ((1 : ℝ) / 252) := by
      rw [periodicRiskFreeRate]
      norm_num
    rw [h1, ← Real.rpow_mul (by norm_num : (0 : ℝ) ≤ 1.12)]
    norm_num

/-- C3 witness: the conversion theorem applied at a = 12, N = 252. -/
theorem C3_witness :
    periodicRiskFreeRate ⟨12, 252, none, none, none⟩ =
        (1 + (12 : ℝ) / 100) ^ ((1 : ℝ) / 252) - 1 ∧
      (∀ t : ℝ, (none : Option ℝ) = some t →
        targetReturnRate ⟨12, 252, none, none, none⟩ =
          (1 + t / 100) ^ ((1 : ℝ) / 252) - 1) ∧
      ((none : Option ℝ) = none →
        targetReturnRate ⟨12, 252, none, none, none⟩ =
          periodicRiskFreeRate ⟨12, 252, none, none, none⟩) ∧
      |(1 + periodicRiskFreeRate ⟨12, 252, none, none, none⟩) ^ (252 : ℝ) - 1.12| ≤
        1e-6 :=
  C3_rate_conversion ⟨12, 252, none, none, none⟩ (by norm_num : (0 : ℝ) < 252)

/-! ## C4: the downside deviation formula -/

/-- C4: the downside deviation is the square root of the sum of squared
shortfalls over the strictly-below-target subset D, divided by
max 1 (size of D - 1), and it is 0 when D is empty. -/
theorem C4_downside_deviation (rc : List ℝ) (params : CalculationParams) :
    downsideDeviation rc params =
        Real.sqrt (((rc.filter fun r => r < targetReturnRate params).map
            fun r => (targetReturnRate params - r) ^ 2).sum /
          max 1 (((rc.filter fun r => r < targetReturnRate params).length : ℝ) - 1)) ∧
      ((rc.filter fun r => r < targetReturnRate params) = [] →
        downsideDeviation rc params = 0) := by
  have hlen : (negativeDeviations rc params).length =
      (rc.filter fun r => r < targetReturnRate params).length := by
    rw [negativeDeviations, List.length_map]
  constructor
  · rcases Nat.eq_zero_or_pos (negativeDeviations rc params).length with h | h
    · have h0 : (rc.filter fun r => r < targetReturnRate params).length = 0 := by
        rw [← hlen]; exact h
      have hfil : (rc.filter fun r => r < targetReturnRate params) = [] :=
        List.length_eq_zero.mp h0
      rw [downsideDeviation, downsideVariance, if_neg (by omega), hfil]
      simp
    · rw [downsideDeviation, downsideVariance, if_pos h, hlen,
        jsOr_sub_one_eq_max _ (by omega), negativeDeviations]
  · intro hfil
    rw [downsideDeviation, downsideVariance, negativeDeviations, hfil]
    simp

/-- C4 witness: the formula evaluated on a concrete series with one downside
observation against the zero target of a zero risk-free configuration. -/
theorem C4_witness :
    downsideDeviation [(-2 : ℝ), 3] ⟨0, 1, none, none, none⟩ =
        Real.sqrt ((([(-2 : ℝ), 3].filter fun r =>
            r < targetReturnRate ⟨0, 1, none, none, none⟩).map
            fun r => (targetReturnRate ⟨0, 1, none, none, none⟩ - r) ^ 2).sum /
          max 1 ((([(-2 : ℝ), 3].filter fun r =>
            r < targetReturnRate ⟨0, 1, none, none, none⟩).length : ℝ) - 1)) :=
  (C4_downside_deviation [(-2 : ℝ), 3] ⟨0, 1, none, none, none⟩).1

/-! ## C5: the epsilon guard and constant series -/

/-- On a constant series the squared deviations from the mean sum to 0. -/
lemma sum_sq_dev_replicate (n : ℕ) (c : ℝ) :
    ((List.replicate n c).map fun v => (v - meanReturn (List.replicate n c)) ^ 2).sum
      = 0 := by
  rcases Nat.eq_zero_or_pos n with h0 | hpos
  · subst h0; simp
  · have hm : meanReturn (List.replicate n c) = c := by
      rw [meanReturn, List.sum_replicate, List.length_replicate, nsmul_eq_mul]
      field_simp
    rw [hm, List.map_replicate]
    simp

/-- A constant series always yields Sharpe ratio 0: the variance numerator
is 0, so the standard deviation is 0 (or NaN at n ≤ 1) and the epsilon
guard takes the zero branch. -/
lemma sharpeRatio_replicate (n : ℕ) (c : ℝ) (params : CalculationParams) :
    sharpeRatio (List.replicate n c) params = 0 := by
  have hv : variance (List.replicate n c) = jsdiv 0 ((n : ℝ) - 1) := by
    rw [variance, sum_sq_dev_replicate, List.length_replicate]
  rw [sharpeRatio, stdDeviation, hv, jsdiv]
  by_cases h1 : ((n : ℝ) - 1) = 0
  · rw [if_pos h1]
    rfl
  · rw [if_neg h1]
    simp only [zero_div, Option.map_some', Real.sqrt_zero]
    rw [if_neg (by norm_num [EPSILON])]

/-- A constant series at or above the target has an empty downside subset,
hence downside deviation 0 and Sortino ratio 0. -/
lemma sortinoRatio_replicate_of_le (n : ℕ) (c : ℝ) (params : CalculationParams)
    (h : targetReturnRate params ≤ c) :
    sortinoRatio (List.replicate n c) params = 0 := by
  have hfil : ((List.replicate n c).filter fun r => r < targetReturnRate params) = [] :=
    filter_replicate_false _ _
      (by simp only [decide_eq_false_iff_not]; exact not_lt.mpr h) n
  rw [sortinoRatio, downsideDeviation, downsideVariance, negativeDeviations, hfil]
  norm_num [EPSILON]

/-- C5 counterexample: the constant series [-2, -2] with risk-free rate 0
and one trading period has periodic target 0, downside deviation sqrt 8
above the epsilon guard, excess return -2, and Sortino ratio
-2 / sqrt 8 ≠ 0 - so a constant series does not always yield Sortino
ratio 0. -/
theorem C5_counterexample :
    calculateSharpeAndSortino [(-2 : ℝ), -2] ⟨0, 1, none, none, none⟩ =
        Except.ok (computeResult [(-2 : ℝ), -2] ⟨0, 1, none, none, none⟩) ∧
      [(-2 : ℝ), -2] = List.replicate 2 (-2 : ℝ) ∧
      (computeResult [(-2 : ℝ), -2] ⟨0, 1, none, none, none⟩).sortinoRatio ≠ 0 := by
  refine ⟨by simp [calculateSharpeAndSortino], by simp [List.replicate], ?_⟩
  have hrc : (returnsForCalculation [(-2 : ℝ), -2] ⟨0, 1, none, none, none⟩).1 =
      [(-2 : ℝ), -2] := by
    simp [returnsForCalculation]
  have ht : targetReturnRate ⟨0, 1, none, none, none⟩ = 0 := by
    simp [targetReturnRate, periodicRiskFreeRate]
  have hnd : negativeDeviations [(-2 : ℝ), -2] ⟨0, 1, none, none, none⟩ =
      [(4 : ℝ), 4] := by
    norm_num [negativeDeviations, ht, List.filter_cons, decide_eq_true_eq]
  have hdv : downsideVariance [(-2 : ℝ), -2] ⟨0, 1, none, none, none⟩ = 8 := by
    norm_num [downsideVariance, hnd, jsOr]
  have hdd : downsideDeviation [(-2 : ℝ), -2] ⟨0, 1, none, none, none⟩ =
      Real.sqrt 8 := by
    rw [downsideDeviation, hdv]
  have hguard : EPSILON < Real.sqrt 8 := by
    rw [EPSILON, show (1e-8 : ℝ) = 1 / 100000000 by norm_num,
      Real.lt_sqrt (by norm_num)]
    norm_num
  have hexcess : excessReturn [(-2 : ℝ), -2] ⟨0, 1, none, none, none⟩ = -2 := by
    norm_num [excessReturn, meanReturn, periodicRiskFreeRate]
  have haf : annualizationFactor ⟨0, 1, none, none, none⟩ = 1 := by
    simp [annualizationFactor]
  unfold computeResult
  simp only [hrc]
  rw [sortinoRatio, hdd, if_pos hguard, hexcess, haf]
  have h2 : Real.sqrt 8 ≠ 0 := Real.sqrt_ne_zero'.mpr (by norm_num)
  intro h
  rw [mul_one] at h
  exact absurd (div_eq_zero_iff.mp h) (by push_neg; exact ⟨by norm_num, h2⟩)

/-- C5 (amended): the Sharpe ratio is (mean - periodic risk-free rate) / s
times sqrt(tradingPeriods) when the standard deviation is a real s > 1e-8,
and 0 otherwise (including the NaN case); the Sortino ratio is the analogous
guarded quotient over the downside deviation; every constant series yields
Sharpe ratio 0, and a constant series at or above the periodic target
yields Sortino ratio 0 - but not every constant series yields Sortino
ratio 0: the concrete constant series of the C5 counterexample, strictly
below its target with a non-zero excess return, has Sortino ratio
-2 / sqrt 8. -/
theorem C5_epsilon_guard :
    (∀ (rc : List ℝ) (params : CalculationParams) (s : ℝ),
      stdDeviation rc = some s →
        sharpeRatio rc params =
          if EPSILON < s then
            (meanReturn rc - periodicRiskFreeRate params) / s *
              Real.sqrt params.tradingPeriods
          else 0) ∧
      (∀ (rc : List ℝ) (params : CalculationParams),
        sortinoRatio rc params =
          if EPSILON < downsideDeviation rc params then
            (meanReturn rc - periodicRiskFreeRate params) /
              downsideDeviation rc params * Real.sqrt params.tradingPeriods
          else 0) ∧
      (∀ (n : ℕ) (c : ℝ) (params : CalculationParams),
        sharpeRatio (List.replicate n c) params = 0) ∧
      (∀ (n : ℕ) (c : ℝ) (params : CalculationParams),
        targetReturnRate params ≤ c →
          sortinoRatio (List.replicate n c) params = 0) := by
  refine ⟨?_, ?_, sharpeRatio_replicate, sortinoRatio_replicate_of_le⟩
  · intro rc params s h
    rw [sharpeRatio, h]
    rfl
  · intro rc params
    rw [sortinoRatio]
    rfl

/-- C5 witness: a concrete constant series at the target, with Sortino
ratio 0 by the amended theorem. -/
theorem C5_witness :
    sortinoRatio (List.replicate 3 (1 : ℝ)) ⟨0, 1, none, none, none⟩ = 0 :=
  C5_epsilon_guard.2.2.2 3 1 ⟨0, 1, none, none, none⟩
    (by simp [targetReturnRate, periodicRiskFreeRate])

/-! ## C8: the annualized return -/

/-- C8 counterexample: with dataFormat "absolute" and the negative
portfolioValue -1 the engine accepts the input but performs no fractional
conversion, so the effective format is absolute and no conversion occurred;
yet the annualized return is the compound form (1 + gm)^N - 1 = 15 for the
series [3] at N = 2, not the simple scaling mean * N = 6 the claim
predicts. -/
theorem C8_counterexample :
    calculateSharpeAndSortino [(3 : ℝ)] ⟨0, 2, none, some "absolute", some (-1)⟩ =
        Except.ok (computeResult [(3 : ℝ)] ⟨0, 2, none, some "absolute", some (-1)⟩) ∧
      (returnsForCalculation [(3 : ℝ)] ⟨0, 2, none, some "absolute", some (-1)⟩).2 =
        false ∧
      (computeResult [(3 : ℝ)] ⟨0, 2, none, some "absolute", some (-1)⟩).annualizedReturn
        = 15 ∧
      meanReturn [(3 : ℝ)] * 2 = 6 ∧
      (computeResult [(3 : ℝ)] ⟨0, 2, none, some "absolute", some (-1)⟩).annualizedReturn
        ≠ meanReturn [(3 : ℝ)] * 2 := by
  have hrc : (returnsForCalculation [(3 : ℝ)] ⟨0, 2, none, some "absolute", some (-1)⟩).1
      = [(3 : ℝ)] := by
    simp [returnsForCalculation, jsTruthy, convertToFractionalReturns]
  have hmean : meanReturn [(3 : ℝ)] * 2 = 6 := by
    norm_num [meanReturn]
  have hann : (computeResult [(3 : ℝ)]
      ⟨0, 2, none, some "absolute", some (-1)⟩).annualizedReturn = 15 := by
    unfold computeResult
    simp only [hrc]
    rw [annualizedReturn]
    have hg : geoMean [(3 : ℝ)] = 3 := by
      rw [geoMean]
      norm_num
      rw [Real.exp_log (by norm_num : (0 : ℝ) < 4)]
      norm_num
    rw [hg]
    norm_num
  refine ⟨by simp [calculateSharpeAndSortino, jsTruthy], ?_, hann, hmean, ?_⟩
  · simp [returnsForCalculation, jsTruthy, convertToFractionalReturns]
  · rw [hann, hmean]
    norm_num

/-- C8 (amended): for every input the engine accepts, the annualized return
is always the compound form (1 + gm)^tradingPeriods - 1 where gm is the
geometric mean exp((sum of ln(1 + r)) / n) - 1 of the series used for
calculation (the converted series when a conversion occurred, the raw
series otherwise); there is no simple-scaling branch for the absolute
format. -/
theorem C8_annualized_return (returns : List ℝ) (params : CalculationParams)
    (hok : ¬ (params.dataFormat = some "absolute" ∧ ¬ jsTruthy params.portfolioValue)) :
    calculateSharpeAndSortino returns params =
        Except.ok (computeResult returns params) ∧
      (computeResult returns params).annualizedReturn =
        (1 + (Real.exp ((((returnsForCalculation returns params).1.map
            fun r => Real.log (1 + r)).sum) /
          ((returnsForCalculation returns params).1.length : ℝ)) - 1)) ^
          params.tradingPeriods - 1 := by
  constructor
  · unfold calculateSharpeAndSortino
    rw [if_neg hok]
  · rfl

/-- C8 witness: the amended theorem applied to the series [1] in a
one-period decimal configuration. -/
theorem C8_witness :
    calculateSharpeAndSortino [(1 : ℝ)] ⟨0, 1, none, none, none⟩ =
        Except.ok (computeResult [(1 : ℝ)] ⟨0, 1, none, none, none⟩) ∧
      (computeResult [(1 : ℝ)] ⟨0, 1, none, none, none⟩).annualizedReturn =
        (1 + (Real.exp ((((returnsForCalculation [(1 : ℝ)]
            ⟨0, 1, none, none, none⟩).1.map fun r => Real.log (1 + r)).sum) /
          ((returnsForCalculation [(1 : ℝ)] ⟨0, 1, none, none, none⟩).1.length : ℝ)) - 1))
          ^ (⟨0, 1, none, none, none⟩ : CalculationParams).tradingPeriods - 1 :=
  C8_annualized_return [(1 : ℝ)] ⟨0, 1, none, none, none⟩ (by simp)

/-! ## C9: the auto-detection buckets and fallback -/

/-- A ten-element series whose percent-like bucket holds exactly 70 percent
of the observations. -/
def c9listA : List ℚ := [5, 5, 5, 5, 5, 5, 5, 200, 200, 200]

/-- A ten-element series with zeros, no bucket above 70 percent, and every
non-zero magnitude inside [0.01, 100]. -/
def c9listB : List ℚ := [0, 0, 0, 0, 5, 5, 5, 2/5, 2/5, 2/5]

/-- C9 counterexample: on c9listA the percent-like bucket holds exactly 70
percent of the observations (7 of 10), yet the classifier does not divide
by 100 - the strict comparison fails and the input falls through to the
pass-through branch tagged decimal.  On c9listB, which contains zeros, no
bucket reaches 70 percent and the magnitude 0 lies outside [0.01, 100], yet
the fallback still divides by 100 and tags percent, because the code tests
only the maximum magnitude and the smallest non-zero magnitude. -/
theorem C9_counterexample :
    processValues c9listA "auto" = (c9listA, "decimal") ∧
      ((c9listA.map fun v => |v|).filter fun v => 1 < v ∧ v ≤ 100).length = 7 ∧
      c9listA.length = 10 ∧
      processValues c9listB "auto" = (c9listB.map fun v => v / 100, "percent") ∧
      ¬ (∀ v ∈ c9listB, (1 : ℚ) / 100 ≤ |v| ∧ |v| ≤ 100) := by
  have hmapA : (c9listA.map fun v => |v|) = c9listA := by norm_num [c9listA]
  have hlenA : c9listA.length = 10 := by norm_num [c9listA]
  have hcntA1 : ((c9listA.map fun v => |v|).filter fun v => 1 < v ∧ v ≤ 100).length
      = 7 := by
    rw [hmapA]; norm_num [c9listA, List.filter]
  have hcntA2 : ((c9listA.map fun v => |v|).filter fun v => 0 < v ∧ v < 1).length
      = 0 := by
    rw [hmapA]; norm_num [c9listA, List.filter]
  have hcntA3 : ((c9listA.map fun v => |v|).filter fun v => 100 < v).length = 3 := by
    rw [hmapA]; norm_num [c9listA, List.filter]
  have hfbA : ¬ (jsMaxQ (c9listA.map fun v => |v|) ≤ ((100 : ℚ) : WithBot ℚ) ∧
      (((1 : ℚ) / 100 : ℚ) : WithTop ℚ) ≤
        jsMinQ ((c9listA.map fun v => |v|).filter fun v => 0 < v)) := by
    rw [hmapA]
    rintro ⟨hmax, -⟩
    have h := (jsMaxQ_le c9listA ((100 : ℚ) : WithBot ℚ)).mp hmax 200
      (by simp [c9listA])
    rw [WithBot.coe_le_coe] at h
    norm_num at h
  have hA : processValues c9listA "auto" = (c9listA, "decimal") := by
    refine processValues_auto_case5 c9listA (by norm_num [c9listA]) ?_ ?_ ?_ hfbA
    · rw [hcntA1, hlenA]; norm_num
    · rw [hcntA2, hlenA]; norm_num
    · rw [hcntA3, hlenA]; norm_num
  have hmapB : (c9listB.map fun v => |v|) = c9listB := by norm_num [c9listB]
  have hlenB : c9listB.length = 10 := by norm_num [c9listB]
  have hcntB1 : ((c9listB.map fun v => |v|).filter fun v => 1 < v ∧ v ≤ 100).length
      = 3 := by
    rw [hmapB]; norm_num [c9listB, List.filter]
  have hcntB2 : ((c9listB.map fun v => |v|).filter fun v => 0 < v ∧ v < 1).length
      = 3 := by
    rw [hmapB]; norm_num [c9listB, List.filter]
  have hcntB3 : ((c9listB.map fun v => |v|).filter fun v => 100 < v).length = 0 := by
    rw [hmapB]; norm_num [c9listB, List.filter]
  have hfilB : (c9listB.filter fun v => 0 < v) = [5, 5, 5, 2/5, 2/5, 2/5] := by
    norm_num [c9listB, List.filter]
  have hfbB : jsMaxQ (c9listB.map fun v => |v|) ≤ ((100 : ℚ) : WithBot ℚ) ∧
      (((1 : ℚ) / 100 : ℚ) : WithTop ℚ) ≤
        jsMinQ ((c9listB.map fun v => |v|).filter fun v => 0 < v) := by
    rw [hmapB, hfilB]
    constructor
    · refine (jsMaxQ_le _ _).mpr ?_
      intro x hx
      simp [c9listB] at hx
      rcases hx with rfl | rfl | rfl <;> exact WithBot.coe_le_coe.mpr (by norm_num)
    · refine (le_jsMinQ _ _).mpr ?_
      intro x hx
      simp at hx
      rcases hx with rfl | rfl <;> exact WithTop.coe_le_coe.mpr (by norm_num)
  have hB : processValues c9listB "auto" = (c9listB.map fun v => v / 100, "percent") := by
    refine processValues_auto_case4 c9listB (by norm_num [c9listB]) ?_ ?_ ?_ hfbB
    · rw [hcntB1, hlenB]; norm_num
    · rw [hcntB2, hlenB]; norm_num
    · rw [hcntB3, hlenB]; norm_num
  refine ⟨hA, hcntA1, hlenA, hB, ?_⟩
  intro hall
  have h0 := hall 0 (by simp [c9listB])
  norm_num at h0

/-- C9 (amended): the auto classifier works exactly as the claim describes
except that a bucket must hold strictly more than 70 percent of the
observations to classify (not at least 70 percent), and the percent
fallback fires exactly when the maximum magnitude is at most 100 and every
non-zero magnitude is at least 0.01 (zeros are ignored by the minimum test,
so a series with zeros can still fall back to percent). -/
theorem C9_auto_detect (values : List ℚ) (h : values ≠ []) :
    ((7 : ℚ) / 10 * values.length <
        (((values.map fun v => |v|).filter fun v => 1 < v ∧ v ≤ 100).length : ℚ) →
      processValues values "auto" = (values.map fun v => v / 100, "percent")) ∧
      (¬ (7 : ℚ) / 10 * values.length <
          (((values.map fun v => |v|).filter fun v => 1 < v ∧ v ≤ 100).length : ℚ) →
        (7 : ℚ) / 10 * values.length <
          (((values.map fun v => |v|).filter fun v => 0 < v ∧ v < 1).length : ℚ) →
        processValues values "auto" = (values, "decimal")) ∧
      (¬ (7 : ℚ) / 10 * values.length <
          (((values.map fun v => |v|).filter fun v => 1 < v ∧ v ≤ 100).length : ℚ) →
        ¬ (7 : ℚ) / 10 * values.length <
          (((values.map fun v => |v|).filter fun v => 0 < v ∧ v < 1).length : ℚ) →
        (7 : ℚ) / 10 * values.length <
          (((values.map fun v => |v|).filter fun v => 100 < v).length : ℚ) →
        processValues values "auto" = (values, "absolute")) ∧
      (¬ (7 : ℚ) / 10 * values.length <
          (((values.map fun v => |v|).filter fun v => 1 < v ∧ v ≤ 100).length : ℚ) →
        ¬ (7 : ℚ) / 10 * values.length <
          (((values.map fun v => |v|).filter fun v => 0 < v ∧ v < 1).length : ℚ) →
        ¬ (7 : ℚ) / 10 * values.length <
          (((values.map fun v => |v|).filter fun v => 100 < v).length : ℚ) →
        (jsMaxQ (values.map fun v => |v|) ≤ ((100 : ℚ) : WithBot ℚ) ∧
          (((1 : ℚ) / 100 : ℚ) : WithTop ℚ) ≤
            jsMinQ ((values.map fun v => |v|).filter fun v => 0 < v) →
          processValues values "auto" = (values.map fun v => v / 100, "percent")) ∧
        (¬ (jsMaxQ (values.map fun v => |v|) ≤ ((100 : ℚ) : WithBot ℚ) ∧
          (((1 : ℚ) / 100 : ℚ) : WithTop ℚ) ≤
            jsMinQ ((values.map fun v => |v|).filter fun v => 0 < v)) →
          processValues values "auto" = (values, "decimal"))) := by
  have h0 : ¬ values.length = 0 := fun hl => h (List.length_eq_zero.mp hl)
  exact ⟨fun h1 => processValues_auto_case1 values h0 h1,
    fun h1 h2 => processValues_auto_case2 values h0 h1 h2,
    fun h1 h2 h3 => processValues_auto_case3 values h0 h1 h2 h3,
    fun h1 h2 h3 =>
      ⟨fun h4 => processValues_auto_case4 values h0 h1 h2 h3 h4,
       fun h4 => processValues_auto_case5 values h0 h1 h2 h3 h4⟩⟩

/-- C9 witness: a series with 8 of 10 magnitudes in (1,100] (strictly more
than 70 percent) classifies as percent and is divided by 100. -/
theorem C9_witness :
    processValues [5, 5, 5, 5, 5, 5, 5, 5, 2/5, 2/5] "auto" =
      (([5, 5, 5, 5, 5, 5, 5, 5, 2/5, 2/5] : List ℚ).map fun v => v / 100,
        "percent") :=
  (C9_auto_detect [5, 5, 5, 5, 5, 5, 5, 5, 2/5, 2/5] (by simp)).1 (by
    have hmap : (([5, 5, 5, 5, 5, 5, 5, 5, 2/5, 2/5] : List ℚ).map fun v => |v|) =
        [5, 5, 5, 5, 5, 5, 5, 5, 2/5, 2/5] := by norm_num
    rw [hmap]
    norm_num [List.filter])

/-! ## C10: the all-zero series under auto-detection -/

/-- C10: a zero observation lies in none of the three magnitude buckets,
the minimum-magnitude test of the fallback is computed over non-zero
magnitudes only (so for an all-zero series it is the JS min of an empty
spread, +Infinity), and an all-zero series therefore reaches the percent
fallback, is divided by 100 (staying all zeros) and is tagged percent. -/
theorem C10_zero_series (n : ℕ) (hn : 0 < n) :
    ¬ (1 < |(0 : ℚ)| ∧ |(0 : ℚ)| ≤ 100) ∧
      ¬ (0 < |(0 : ℚ)| ∧ |(0 : ℚ)| < 1) ∧
      ¬ (100 < |(0 : ℚ)|) ∧
      jsMinQ (((List.replicate n (0 : ℚ)).map fun v => |v|).filter fun v => 0 < v)
        = ⊤ ∧
      processValues (List.replicate n (0 : ℚ)) "auto" =
        (List.replicate n (0 : ℚ), "percent") := by
  have hmap : ((List.replicate n (0 : ℚ)).map fun v => |v|) =
      List.replicate n (0 : ℚ) := by
    rw [List.map_replicate]; norm_num
  have hfil0 : ((List.replicate n (0 : ℚ)).filter fun v => 0 < v) = [] :=
    filter_replicate_false _ _ (by simp) n
  have hminQ : jsMinQ (((List.replicate n (0 : ℚ)).map fun v => |v|).filter
      fun v => 0 < v) = ⊤ := by
    rw [hmap, hfil0, jsMinQ_nil]
  have h0 : ¬ (List.replicate n (0 : ℚ)).length = 0 := by
    simpa [List.length_replicate] using hn.ne'
  have hc1 : (((List.replicate n (0 : ℚ)).map fun v => |v|).filter
      fun v => 1 < v ∧ v ≤ 100) = [] := by
    rw [hmap]; exact filter_replicate_false _ _ (by simp) n
  have hc2 : (((List.replicate n (0 : ℚ)).map fun v => |v|).filter
      fun v => 0 < v ∧ v < 1) = [] := by
    rw [hmap]; exact filter_replicate_false _ _ (by simp) n
  have hc3 : (((List.replicate n (0 : ℚ)).map fun v => |v|).filter
      fun v => 100 < v) = [] := by
    rw [hmap]; exact filter_replicate_false _ _ (by simp) n
  have hthr : ¬ (7 : ℚ) / 10 * (List.replicate n (0 : ℚ)).length < ((0 : ℕ) : ℚ) := by
    simp only [List.length_replicate, Nat.cast_zero]
    exact not_lt.mpr (by positivity)
  have hdiv : ((List.replicate n (0 : ℚ)).map fun v => v / 100) =
      List.replicate n (0 : ℚ) := by
    rw [List.map_replicate]; norm_num
  have hres : processValues (List.replicate n (0 : ℚ)) "auto" =
      (List.replicate n (0 : ℚ), "percent") := by
    have hres0 : processValues (List.replicate n (0 : ℚ)) "auto" =
        ((List.replicate n (0 : ℚ)).map fun v => v / 100, "percent") := by
      refine processValues_auto_case4 _ h0 ?_ ?_ ?_ ?_
      · rw [hc1]; simp only [List.length_nil]; exact hthr
      · rw [hc2]; simp only [List.length_nil]; exact hthr
      · rw [hc3]; simp only [List.length_nil]; exact hthr
      · constructor
        · rw [hmap]
          refine (jsMaxQ_le _ _).mpr ?_
          intro x hx
          rw [List.eq_of_mem_replicate hx]
          exact WithBot.coe_le_coe.mpr (by norm_num)
        · rw [hminQ]
          exact le_top
    rw [hdiv] at hres0
    exact hres0
  exact ⟨by norm_num, by norm_num, by norm_num, hminQ, hres⟩

/-- C10 witness: the all-zero series of length three. -/
theorem C10_witness :
    processValues (List.replicate 3 (0 : ℚ)) "auto" =
      (List.replicate 3 (0 : ℚ), "percent") :=
  (C10_zero_series 3 (by norm_num)).2.2.2.2

end SharpeSortino
